import Mathlib

/-!
Shallow embedding of the accessibility-scoring engine of this repository
(`modeules/accessibility_analysis.py`, class `AccessibilityAnalyzer`) and of
the facility nearest-search (`accessibility_analyzer/modules/facility_data.py`,
`FacilityData.find_nearest_facility` / `calculate_distance`).

Modelling conventions:
* A segmentation map (`seg_map`, a 2-D numpy integer array) is a
  `List (List Nat)`; an object mask is represented by the row-major list of
  coordinates of its true cells (`np.where` order).
* Python dict keys that are only conditionally written (`has_door`,
  `has_sidewalk`, `has_building`, `has_railing`, `has_stairs_railing`,
  entries of `obstacle_details`) are `Option` fields, `none` meaning the key
  is absent from the dict.
* A Python `KeyError` (raised by `self.class_map['stairs']` and by
  `accessibility_info['obstacle_details']['door']`) is an `Except.error`.
* Euclidean distances: the source computes `np.sqrt(dy**2 + dx**2)` and only
  ever compares the result with a threshold (or takes minima, and `sqrt` is
  monotone).  We carry the exact squared distance (a `Nat`) and decide
  `√d < t` / `√d > t` on the squares; theorems `sqrtLt_iff` / `sqrtGt_iff`
  prove these decisions agree with the real square root.  `float('inf')` is
  `Option.none`.
* `np.random.choice(n, k)` (sampling k indices below n, with replacement) is
  an oracle: a `Sampler` bundles the index function with the validity facts
  numpy guarantees (result length `k`, entries `< n` when `0 < n`).
* Floating point rounding is not modelled: ratios are exact rationals, the
  threshold is a rational.  The haversine metric of `calculate_distance`
  (float `sin`/`cos`/`asin`) is abstracted as a rational-valued distance
  parameter; the selection logic of `find_nearest_facility` is independent
  of the metric.
-/

namespace AbleMap

/-- A Python `KeyError` escaping a dict subscript. -/
inductive PyError where
  | keyError (key : String)
deriving DecidableEq

/-- `self.class_map`: a semantic-class-name → class-id dictionary. -/
abbrev ClassMap := List (String × Nat)

/-- `self.class_map[name]`: dict subscript, raising `KeyError` when absent. -/
def ClassMap.lookupId (cm : ClassMap) (name : String) : Except PyError Nat :=
  match List.lookup name cm with
  | some v => Except.ok v
  | none => Except.error (PyError.keyError name)

/-- `seg_map`: the 2-D grid of class ids. -/
abbrev LabelGrid := List (List Nat)

/-- `seg_map.size`: total number of cells. -/
def gridSize (g : LabelGrid) : Nat := (g.map List.length).sum

/-- Row-major coordinates of the cells equal to `c`: the coordinate lists
`np.where(seg_map == c)` of the mask `seg_map == c`.  The mask is empty
(all false) iff this list is empty; `np.count_nonzero` is its length. -/
def maskCoords (g : LabelGrid) (c : Nat) : List (Nat × Nat) :=
  g.enum.flatMap (fun yr =>
    yr.2.enum.filterMap (fun xv => if xv.2 = c then some (yr.1, xv.1) else none))

/-- Oracle for `np.random.choice(n, k)`: `k` indices below `n` (drawn with
replacement in the source, so duplicates are allowed here too). -/
structure Sampler where
  choice : Nat → Nat → List Nat
  length_eq : ∀ n k, (choice n k).length = k
  mem_lt : ∀ n k, 0 < n → ∀ i ∈ choice n k, i < n

/-- A concrete sampler usable in closed evaluations. -/
def defaultSampler : Sampler where
  choice := fun n k => (List.range k).map (fun i => i % n)
  length_eq := by intro n k; simp
  mem_lt := by
    intro n k hn i hi
    simp only [List.mem_map] at hi
    obtain ⟨j, _, rfl⟩ := hi
    exact Nat.mod_lt _ hn

/-- Squared Euclidean distance `(y1-y2)**2 + (x1-x2)**2` between two pixel
coordinates; the source takes `np.sqrt` of this. -/
def sqDist (p q : Nat × Nat) : Nat :=
  ((p.1 : Int) - (q.1 : Int)).natAbs ^ 2 + ((p.2 : Int) - (q.2 : Int)).natAbs ^ 2

/-- `min_dist = min(min_dist, dist)` with `none` playing `float('inf')`. -/
def minUpdate (acc : Option Nat) (d : Nat) : Option Nat :=
  match acc with
  | none => some d
  | some m => some (min m d)

/-- The nested loop of `_calculate_object_distance`: minimum of `sqDist`
over all cross pairs, starting from `float('inf')` (`none`). -/
def minPairSq (s1 s2 : List (Nat × Nat)) : Option Nat :=
  s1.foldl (fun acc p => s2.foldl (fun a q => minUpdate a (sqDist p q)) acc) none

/-- `max_samples = min(100, len(y1), len(y2))`. -/
def sampleCount (l1 l2 : List (Nat × Nat)) : Nat :=
  min 100 (min l1.length l2.length)

/-- `np.random.choice(n, m) if n > m else np.arange(n)`. -/
def sampleIndices (smp : Sampler) (n m : Nat) : List Nat :=
  if m < n then smp.choice n m else List.range n

/-- The coordinates selected by the sampled indices (`y[indices], x[indices]`;
out-of-range indices cannot occur for a valid `Sampler`). -/
def samplePoints (smp : Sampler) (l : List (Nat × Nat)) (m : Nat) : List (Nat × Nat) :=
  (sampleIndices smp l.length m).filterMap (fun i => l.get? i)

/-- `_calculate_object_distance(mask1, mask2)` on the coordinate lists of the
two masks, returning the squared minimum sampled distance (`none` is
`float('inf')`, returned when either list is empty). -/
def calcObjectDistanceSq (smp : Sampler) (l1 l2 : List (Nat × Nat)) : Option Nat :=
  if l1.length = 0 ∨ l2.length = 0 then none
  else
    minPairSq (samplePoints smp l1 (sampleCount l1 l2))
      (samplePoints smp l2 (sampleCount l1 l2))

/-- Decision of `√d < t` on the square. -/
def sqrtLt (d : Nat) (t : ℚ) : Bool := decide (0 < t ∧ (d : ℚ) < t ^ 2)

/-- Decision of `√d > t` on the square. -/
def sqrtGt (d : Nat) (t : ℚ) : Bool := decide (t < 0 ∨ (t ^ 2 : ℚ) < (d : ℚ))

/-- `min_distance < threshold` with `none` as `float('inf')`:
`inf < t` is false. -/
def optDistLt (d : Option Nat) (t : ℚ) : Bool :=
  match d with
  | none => false
  | some d => sqrtLt d t

/-- `distance > threshold` with `none` as `float('inf')`: `inf > t` is true. -/
def optDistGt (d : Option Nat) (t : ℚ) : Bool :=
  match d with
  | none => true
  | some d => sqrtGt d t

/-- `_estimate_size(ratio)`. -/
def estimateSize (r : ℚ) : String :=
  if r < 1/100 then ("very small")
  else if r < 5/100 then ("small")
  else if r < 15/100 then ("medium")
  else if r < 3/10 then ("large")
  else ("very large")

/-- `_estimate_door_width(ratio)`. -/
def estimateDoorWidth (r : ℚ) : String :=
  if r < 1/100 then ("narrow")
  else if r < 3/100 then ("standard")
  else ("wide")

/-- `obstacle_details['stairs']`. -/
structure SizeDetail where
  pixel_count : Nat
  area : ℚ
  estimated_size : String
deriving DecidableEq

/-- `obstacle_details['door']`. -/
structure DoorDetail where
  pixel_count : Nat
  area : ℚ
  estimated_width : String
deriving DecidableEq

/-- `obstacle_details['building']`. -/
structure BuildingDetail where
  pixel_count : Nat
  area : ℚ
deriving DecidableEq

/-- A recorded distance value: the square of the stored float, `none` for
`float('inf')`. -/
abbrev DistVal := Option Nat

/-- The `obstacle_details` dict; `none` = key absent. -/
structure ObstacleDetails where
  stairs : Option SizeDetail := none
  door : Option DoorDetail := none
  stairs_to_door_distance : Option DistVal := none
  sidewalk_to_door_distance : Option DistVal := none
  building : Option BuildingDetail := none
  railing_to_stairs_distance : Option DistVal := none
deriving DecidableEq

/-- The `accessibility_info` dict built by `analyze`.  The first five keys
are written unconditionally at initialisation; the `Option` fields are keys
only conditionally written (`none` = key absent), and `accessibility_score`
is written last. -/
structure AccessibilityInfo where
  has_stairs : Bool
  has_ramp : Bool
  entrance_accessible : Bool
  obstacles : List String
  obstacle_details : ObstacleDetails
  has_door : Option Bool := none
  has_sidewalk : Option Bool := none
  has_building : Option Bool := none
  has_railing : Option Bool := none
  has_stairs_railing : Option Bool := none
  accessibility_score : Option Int := none
deriving DecidableEq

/-- The dict literal at the top of `analyze`. -/
def initInfo : AccessibilityInfo where
  has_stairs := false
  has_ramp := false
  entrance_accessible := true
  obstacles := []
  obstacle_details := {}

/-- `_calculate_accessibility_score(accessibility_info)`.  The subscript
`obstacle_details['door']` raises `KeyError` when the key is absent. -/
def calcScore (info : AccessibilityInfo) : Except PyError Int :=
  let score : Int := 10
  let score : Int :=
    if info.obstacles.contains ("stairs_at_entrance") then
      let s := score - 5
      if info.has_stairs_railing.getD false then s + 1 else s
    else if info.has_stairs then score - 2 else score
  let score : Int :=
    if info.obstacles.contains ("disconnected_sidewalk") then score - 2 else score
  if info.has_door.getD false then
    match info.obstacle_details.door with
    | none => Except.error (PyError.keyError ("door"))
    | some d =>
      let score : Int :=
        if d.estimated_width = "narrow" then score - 3
        else if d.estimated_width = "wide" then score + 1
        else score
      Except.ok (max 1 (min 10 score))
  else Except.ok (max 1 (min 10 score))

/-- The stairs block of `analyze` (lines 35-49). -/
def stairsStep (g : LabelGrid) (sid : Nat) (info : AccessibilityInfo) :
    AccessibilityInfo :=
  let sc := maskCoords g sid
  if sc ≠ [] then
    let r : ℚ := (sc.length : ℚ) / (gridSize g : ℚ)
    { info with
      has_stairs := true
      obstacles := info.obstacles ++ ["stairs"]
      obstacle_details := { info.obstacle_details with
        stairs := some ⟨sc.length, r, estimateSize r⟩ } }
  else info

/-- The door block of `analyze` (lines 51-73). -/
def doorStep (t : ℚ) (smp : Sampler) (g : LabelGrid) (sid did : Nat)
    (info : AccessibilityInfo) : AccessibilityInfo :=
  let dc := maskCoords g did
  if dc ≠ [] then
    let r : ℚ := (dc.length : ℚ) / (gridSize g : ℚ)
    let info := { info with
      has_door := some true
      obstacle_details := { info.obstacle_details with
        door := some ⟨dc.length, r, estimateDoorWidth r⟩ } }
    if info.has_stairs then
      let d := calcObjectDistanceSq smp (maskCoords g sid) dc
      let info := { info with obstacle_details :=
        { info.obstacle_details with stairs_to_door_distance := some d } }
      if optDistLt d t then
        { info with
          entrance_accessible := false
          obstacles := info.obstacles ++ ["stairs_at_entrance"] }
      else info
    else info
  else info

/-- The sidewalk block of `analyze` (lines 75-87). -/
def sidewalkStep (t : ℚ) (smp : Sampler) (g : LabelGrid) (did swid : Nat)
    (info : AccessibilityInfo) : AccessibilityInfo :=
  let swc := maskCoords g swid
  if swc ≠ [] then
    let info := { info with has_sidewalk := some true }
    if info.has_door.getD false then
      let d := calcObjectDistanceSq smp swc (maskCoords g did)
      let info := { info with obstacle_details :=
        { info.obstacle_details with sidewalk_to_door_distance := some d } }
      if optDistGt d t then
        { info with obstacles := info.obstacles ++ ["disconnected_sidewalk"] }
      else info
    else info
  else info

/-- The building block of `analyze` (lines 89-101). -/
def buildingStep (g : LabelGrid) (bid : Nat) (info : AccessibilityInfo) :
    AccessibilityInfo :=
  let bc := maskCoords g bid
  if bc ≠ [] then
    { info with
      has_building := some true
      obstacle_details := { info.obstacle_details with
        building := some ⟨bc.length, (bc.length : ℚ) / (gridSize g : ℚ)⟩ } }
  else info

/-- The railing block of `analyze` (lines 103-115). -/
def railingStep (t : ℚ) (smp : Sampler) (g : LabelGrid) (sid rid : Nat)
    (info : AccessibilityInfo) : AccessibilityInfo :=
  let rc := maskCoords g rid
  if rc ≠ [] then
    let info := { info with has_railing := some true }
    if info.has_stairs then
      let d := calcObjectDistanceSq smp rc (maskCoords g sid)
      let info := { info with obstacle_details :=
        { info.obstacle_details with railing_to_stairs_distance := some d } }
      if optDistLt d t then { info with has_stairs_railing := some true }
      else info
    else info
  else info

/-- The five pure blocks of `analyze` composed in source order, given the
five resolved class ids. -/
def pipeline (t : ℚ) (smp : Sampler) (g : LabelGrid)
    (sid did swid bid rid : Nat) : AccessibilityInfo :=
  railingStep t smp g sid rid
    (buildingStep g bid
      (sidewalkStep t smp g did swid
        (doorStep t smp g sid did
          (stairsStep g sid initInfo))))

/-- `AccessibilityAnalyzer.analyze(seg_map)` with the constructor parameters
(`class_map`, `threshold_distance`) and the random source made explicit.
The five `self.class_map[...]` subscripts occur, in source order, at the head
of each block and raise `KeyError` when the name is absent; the blocks
themselves are pure, so resolving the ids first and then composing the
blocks (`pipeline`) is observationally the interleaving of the source. -/
def analyze (cm : ClassMap) (t : ℚ) (smp : Sampler) (g : LabelGrid) :
    Except PyError AccessibilityInfo :=
  match cm.lookupId ("stairs") with
  | Except.error e => Except.error e
  | Except.ok sid =>
    match cm.lookupId ("door") with
    | Except.error e => Except.error e
    | Except.ok did =>
      match cm.lookupId ("sidewalk") with
      | Except.error e => Except.error e
      | Except.ok swid =>
        match cm.lookupId ("building") with
        | Except.error e => Except.error e
        | Except.ok bid =>
          match cm.lookupId ("railing") with
          | Except.error e => Except.error e
          | Except.ok rid =>
            match calcScore (pipeline t smp g sid did swid bid rid) with
            | Except.error e => Except.error e
            | Except.ok s =>
              Except.ok { pipeline t smp g sid did swid bid rid with
                          accessibility_score := some s }

/-- One record of the facility list (`facilities` entries in
`FacilityData.find_nearest_facility`): the fields the search reads, already
parsed.  `none` = key absent from the dict. -/
structure Facility where
  wfcltId : Option String
  faclLat : Option ℚ
  faclLng : Option ℚ
deriving DecidableEq

/-- `'wfcltId' not in facility or not facility['wfcltId']` (the empty string
is falsy). -/
def Facility.missingId (f : Facility) : Bool :=
  match f.wfcltId with
  | none => true
  | some s => decide (s = "")

/-- A candidate survives all the `continue` filters of the loop:
it has a non-empty `wfcltId` and `float(facility.get('faclLat', 0))` and
`float(facility.get('faclLng', 0))` are both non-zero. -/
def Facility.eligible (f : Facility) : Bool :=
  !f.missingId && !(decide (f.faclLat.getD 0 = 0)) && !(decide (f.faclLng.getD 0 = 0))

/-- The distance the loop computes for a candidate:
`calculate_distance(latitude, longitude, fac_lat, fac_lng)`, with the
haversine metric abstracted as the parameter `dist`. -/
def facDist (dist : ℚ → ℚ → ℚ → ℚ → ℚ) (lat lng : ℚ) (f : Facility) : ℚ :=
  dist lat lng (f.faclLat.getD 0) (f.faclLng.getD 0)

/-- `distance < min_distance` with `min_distance` starting at `float('inf')`
(`none`). -/
def ltMinDist (d : ℚ) (m : Option ℚ) : Bool :=
  match m with
  | none => true
  | some m => decide (d < m)

/-- One iteration of the loop body of `find_nearest_facility`; the
accumulator is `(min_distance, nearest_facility)`. -/
def nearestStep (dist : ℚ → ℚ → ℚ → ℚ → ℚ) (lat lng : ℚ)
    (acc : Option ℚ × Option Facility) (f : Facility) :
    Option ℚ × Option Facility :=
  if f.missingId then acc
  else if f.faclLat.getD 0 = 0 ∨ f.faclLng.getD 0 = 0 then acc
  else
    let d := facDist dist lat lng f
    if ltMinDist d acc.1 then (some d, some f) else acc

/-- `FacilityData.find_nearest_facility(latitude, longitude, facilities)`
(lines 62-92), with the haversine metric abstracted as `dist`. -/
def find_nearest_facility (dist : ℚ → ℚ → ℚ → ℚ → ℚ) (lat lng : ℚ)
    (fs : List Facility) : Option Facility :=
  (fs.foldl (nearestStep dist lat lng) (none, none)).2

/-- Modelled from the spec: the selection contract of `nearestFacility` —
return the first-encountered eligible candidate of strictly minimal
distance, `none` when no eligible candidate exists.  Used as the
specification side of the refinement proof for the nearest-search. -/
def nearestFacilitySpec (dist : ℚ → ℚ → ℚ → ℚ → ℚ) (lat lng : ℚ) :
    List Facility → Option Facility
  | [] => none
  | f :: fs =>
    if f.eligible then
      match nearestFacilitySpec dist lat lng fs with
      | none => some f
      | some g =>
        if facDist dist lat lng g < facDist dist lat lng f then some g
        else some f
    else nearestFacilitySpec dist lat lng fs

/-! Concrete inputs used in closed evaluations. -/

/-- A concrete class map with the five tracked classes. -/
def sampleClassMap : ClassMap :=
  [("stairs", 1), ("door", 2), ("sidewalk", 3), ("building", 4), ("railing", 5)]

/-- A class map with no `stairs` entry. -/
def noStairsClassMap : ClassMap := [("door", 2)]

/-- The result of `analyze` on a grid with no tracked class. -/
def quietInfo : AccessibilityInfo :=
  { has_stairs := false, has_ramp := false, entrance_accessible := true,
    obstacles := [], obstacle_details := {}, accessibility_score := some 10 }

/-- The result of `analyze sampleClassMap 5 defaultSampler [[3]]`:
a grid with a single sidewalk cell. -/
def sidewalkInfo : AccessibilityInfo :=
  { has_stairs := false, has_ramp := false, entrance_accessible := true,
    obstacles := [], obstacle_details := {}, has_sidewalk := some true,
    accessibility_score := some 10 }

/-- The result of `analyze sampleClassMap 5 defaultSampler [[1, 5]]`:
one stairs cell right next to one railing cell. -/
def railingInfo : AccessibilityInfo :=
  { has_stairs := true, has_ramp := false, entrance_accessible := true,
    obstacles := ["stairs"],
    obstacle_details := { stairs := some ⟨1, 1/2, "very large"⟩,
                          railing_to_stairs_distance := some (some 1) },
    has_railing := some true, has_stairs_railing := some true,
    accessibility_score := some 8 }

/-- The result of `analyze sampleClassMap 5 defaultSampler [[1, 2]]`:
one stairs cell right next to one door cell. -/
def stairsDoorInfo : AccessibilityInfo :=
  { has_stairs := true, has_ramp := false, entrance_accessible := false,
    obstacles := ["stairs", "stairs_at_entrance"],
    obstacle_details := { stairs := some ⟨1, 1/2, "very large"⟩,
                          door := some ⟨1, 1/2, "wide"⟩,
                          stairs_to_door_distance := some (some 1) },
    has_door := some true, accessibility_score := some 6 }

/-- 200 collinear pixel coordinates. -/
def row200 : List (Nat × Nat) := (List.range 200).map (fun i => (0, i))

/-- A concrete stand-in for the haversine metric in closed evaluations
(the selection theorems hold for every metric). -/
def taxiDist (lat lng flat flng : ℚ) : ℚ := |flat - lat| + |flng - lng|

/-- Three concrete candidate facilities: an eligible far one, an ineligible
nominally-closest one (zero latitude), and an eligible nearest one. -/
def facFar : Facility := ⟨some ("A"), some 3, some 4⟩

/-- Ineligible candidate: latitude entry absent (`.get` default 0). -/
def facZero : Facility := ⟨some ("B"), none, some 1⟩

/-- The eligible nearest candidate. -/
def facNear : Facility := ⟨some ("C"), some 1, some 1⟩

/-! Field characterisations of the five blocks. -/

lemma stairsStep_has_stairs (g : LabelGrid) (sid : Nat) (i : AccessibilityInfo) :
    (stairsStep g sid i).has_stairs =
      if maskCoords g sid ≠ [] then true else i.has_stairs := by
  simp only [stairsStep]; split <;> simp_all

lemma stairsStep_obstacles (g : LabelGrid) (sid : Nat) (i : AccessibilityInfo) :
    (stairsStep g sid i).obstacles =
      i.obstacles ++ (if maskCoords g sid ≠ [] then ["stairs"] else []) := by
  simp only [stairsStep]; split <;> simp_all

lemma stairsStep_preserved (g : LabelGrid) (sid : Nat) (i : AccessibilityInfo) :
    (stairsStep g sid i).has_ramp = i.has_ramp ∧
    (stairsStep g sid i).entrance_accessible = i.entrance_accessible ∧
    (stairsStep g sid i).has_door = i.has_door ∧
    (stairsStep g sid i).has_sidewalk = i.has_sidewalk ∧
    (stairsStep g sid i).has_building = i.has_building ∧
    (stairsStep g sid i).has_railing = i.has_railing ∧
    (stairsStep g sid i).has_stairs_railing = i.has_stairs_railing ∧
    (stairsStep g sid i).accessibility_score = i.accessibility_score ∧
    (stairsStep g sid i).obstacle_details.door = i.obstacle_details.door ∧
    (stairsStep g sid i).obstacle_details.stairs_to_door_distance
      = i.obstacle_details.stairs_to_door_distance ∧
    (stairsStep g sid i).obstacle_details.sidewalk_to_door_distance
      = i.obstacle_details.sidewalk_to_door_distance ∧
    (stairsStep g sid i).obstacle_details.railing_to_stairs_distance
      = i.obstacle_details.railing_to_stairs_distance := by
  simp only [stairsStep]; split <;> simp_all

lemma doorStep_has_door (t : ℚ) (smp : Sampler) (g : LabelGrid) (sid did : Nat)
    (i : AccessibilityInfo) :
    (doorStep t smp g sid did i).has_door =
      if maskCoords g did ≠ [] then some true else i.has_door := by
  simp only [doorStep]; split_ifs <;> simp_all

lemma doorStep_entrance (t : ℚ) (smp : Sampler) (g : LabelGrid) (sid did : Nat)
    (i : AccessibilityInfo) :
    (doorStep t smp g sid did i).entrance_accessible =
      if maskCoords g did ≠ [] ∧ i.has_stairs = true ∧
          optDistLt (calcObjectDistanceSq smp (maskCoords g sid) (maskCoords g did)) t = true
        then false else i.entrance_accessible := by
  simp only [doorStep]; split_ifs <;> simp_all

lemma doorStep_obstacles (t : ℚ) (smp : Sampler) (g : LabelGrid) (sid did : Nat)
    (i : AccessibilityInfo) :
    (doorStep t smp g sid did i).obstacles =
      i.obstacles ++
        (if maskCoords g did ≠ [] ∧ i.has_stairs = true ∧
            optDistLt (calcObjectDistanceSq smp (maskCoords g sid) (maskCoords g did)) t = true
          then ["stairs_at_entrance"] else []) := by
  simp only [doorStep]; split_ifs <;> simp_all

lemma doorStep_door_detail (t : ℚ) (smp : Sampler) (g : LabelGrid) (sid did : Nat)
    (i : AccessibilityInfo) :
    (doorStep t smp g sid did i).obstacle_details.door =
      if maskCoords g did ≠ [] then
        some ⟨(maskCoords g did).length,
              ((maskCoords g did).length : ℚ) / (gridSize g : ℚ),
              estimateDoorWidth (((maskCoords g did).length : ℚ) / (gridSize g : ℚ))⟩
      else i.obstacle_details.door := by
  simp only [doorStep]; split_ifs <;> simp_all

lemma doorStep_std_distance (t : ℚ) (smp : Sampler) (g : LabelGrid) (sid did : Nat)
    (i : AccessibilityInfo) :
    (doorStep t smp g sid did i).obstacle_details.stairs_to_door_distance =
      if maskCoords g did ≠ [] ∧ i.has_stairs = true then
        some (calcObjectDistanceSq smp (maskCoords g sid) (maskCoords g did))
      else i.obstacle_details.stairs_to_door_distance := by
  simp only [doorStep]; split_ifs <;> simp_all

lemma doorStep_preserved (t : ℚ) (smp : Sampler) (g : LabelGrid) (sid did : Nat)
    (i : AccessibilityInfo) :
    (doorStep t smp g sid did i).has_stairs = i.has_stairs ∧
    (doorStep t smp g sid did i).has_ramp = i.has_ramp ∧
    (doorStep t smp g sid did i).has_sidewalk = i.has_sidewalk ∧
    (doorStep t smp g sid did i).has_building = i.has_building ∧
    (doorStep t smp g sid did i).has_railing = i.has_railing ∧
    (doorStep t smp g sid did i).has_stairs_railing = i.has_stairs_railing ∧
    (doorStep t smp g sid did i).accessibility_score = i.accessibility_score ∧
    (doorStep t smp g sid did i).obstacle_details.stairs = i.obstacle_details.stairs ∧
    (doorStep t smp g sid did i).obstacle_details.sidewalk_to_door_distance
      = i.obstacle_details.sidewalk_to_door_distance ∧
    (doorStep t smp g sid did i).obstacle_details.railing_to_stairs_distance
      = i.obstacle_details.railing_to_stairs_distance := by
  simp only [doorStep]; split_ifs <;> simp_all

lemma sidewalkStep_has_sidewalk (t : ℚ) (smp : Sampler) (g : LabelGrid)
    (did swid : Nat) (i : AccessibilityInfo) :
    (sidewalkStep t smp g did swid i).has_sidewalk =
      if maskCoords g swid ≠ [] then some true else i.has_sidewalk := by
  simp only [sidewalkStep]; split_ifs <;> simp_all

lemma sidewalkStep_obstacles (t : ℚ) (smp : Sampler) (g : LabelGrid)
    (did swid : Nat) (i : AccessibilityInfo) :
    (sidewalkStep t smp g did swid i).obstacles =
      i.obstacles ++
        (if maskCoords g swid ≠ [] ∧ i.has_door.getD false = true ∧
            optDistGt (calcObjectDistanceSq smp (maskCoords g swid) (maskCoords g did)) t = true
          then ["disconnected_sidewalk"] else []) := by
  simp only [sidewalkStep]; split_ifs <;> simp_all

lemma sidewalkStep_preserved (t : ℚ) (smp : Sampler) (g : LabelGrid)
    (did swid : Nat) (i : AccessibilityInfo) :
    (sidewalkStep t smp g did swid i).has_stairs = i.has_stairs ∧
    (sidewalkStep t smp g did swid i).has_ramp = i.has_ramp ∧
    (sidewalkStep t smp g did swid i).entrance_accessible = i.entrance_accessible ∧
    (sidewalkStep t smp g did swid i).has_door = i.has_door ∧
    (sidewalkStep t smp g did swid i).has_building = i.has_building ∧
    (sidewalkStep t smp g did swid i).has_railing = i.has_railing ∧
    (sidewalkStep t smp g did swid i).has_stairs_railing = i.has_stairs_railing ∧
    (sidewalkStep t smp g did swid i).accessibility_score = i.accessibility_score ∧
    (sidewalkStep t smp g did swid i).obstacle_details.stairs = i.obstacle_details.stairs ∧
    (sidewalkStep t smp g did swid i).obstacle_details.door = i.obstacle_details.door ∧
    (sidewalkStep t smp g did swid i).obstacle_details.stairs_to_door_distance
      = i.obstacle_details.stairs_to_door_distance ∧
    (sidewalkStep t smp g did swid i).obstacle_details.railing_to_stairs_distance
      = i.obstacle_details.railing_to_stairs_distance := by
  simp only [sidewalkStep]; split_ifs <;> simp_all

lemma buildingStep_has_building (g : LabelGrid) (bid : Nat) (i : AccessibilityInfo) :
    (buildingStep g bid i).has_building =
      if maskCoords g bid ≠ [] then some true else i.has_building := by
  simp only [buildingStep]; split_ifs <;> simp_all

lemma buildingStep_preserved (g : LabelGrid) (bid : Nat) (i : AccessibilityInfo) :
    (buildingStep g bid i).has_stairs = i.has_stairs ∧
    (buildingStep g bid i).has_ramp = i.has_ramp ∧
    (buildingStep g bid i).entrance_accessible = i.entrance_accessible ∧
    (buildingStep g bid i).obstacles = i.obstacles ∧
    (buildingStep g bid i).has_door = i.has_door ∧
    (buildingStep g bid i).has_sidewalk = i.has_sidewalk ∧
    (buildingStep g bid i).has_railing = i.has_railing ∧
    (buildingStep g bid i).has_stairs_railing = i.has_stairs_railing ∧
    (buildingStep g bid i).accessibility_score = i.accessibility_score ∧
    (buildingStep g bid i).obstacle_details.stairs = i.obstacle_details.stairs ∧
    (buildingStep g bid i).obstacle_details.door = i.obstacle_details.door ∧
    (buildingStep g bid i).obstacle_details.stairs_to_door_distance
      = i.obstacle_details.stairs_to_door_distance ∧
    (buildingStep g bid i).obstacle_details.sidewalk_to_door_distance
      = i.obstacle_details.sidewalk_to_door_distance ∧
    (buildingStep g bid i).obstacle_details.railing_to_stairs_distance
      = i.obstacle_details.railing_to_stairs_distance := by
  simp only [buildingStep]; split_ifs <;> simp_all

lemma railingStep_has_railing (t : ℚ) (smp : Sampler) (g : LabelGrid)
    (sid rid : Nat) (i : AccessibilityInfo) :
    (railingStep t smp g sid rid i).has_railing =
      if maskCoords g rid ≠ [] then some true else i.has_railing := by
  simp only [railingStep]; split_ifs <;> simp_all

lemma railingStep_has_stairs_railing (t : ℚ) (smp : Sampler) (g : LabelGrid)
    (sid rid : Nat) (i : AccessibilityInfo) :
    (railingStep t smp g sid rid i).has_stairs_railing =
      if maskCoords g rid ≠ [] ∧ i.has_stairs = true ∧
          optDistLt (calcObjectDistanceSq smp (maskCoords g rid) (maskCoords g sid)) t = true
        then some true else i.has_stairs_railing := by
  simp only [railingStep]; split_ifs <;> simp_all

lemma railingStep_preserved (t : ℚ) (smp : Sampler) (g : LabelGrid)
    (sid rid : Nat) (i : AccessibilityInfo) :
    (railingStep t smp g sid rid i).has_stairs = i.has_stairs ∧
    (railingStep t smp g sid rid i).has_ramp = i.has_ramp ∧
    (railingStep t smp g sid rid i).entrance_accessible = i.entrance_accessible ∧
    (railingStep t smp g sid rid i).obstacles = i.obstacles ∧
    (railingStep t smp g sid rid i).has_door = i.has_door ∧
    (railingStep t smp g sid rid i).has_sidewalk = i.has_sidewalk ∧
    (railingStep t smp g sid rid i).has_building = i.has_building ∧
    (railingStep t smp g sid rid i).accessibility_score = i.accessibility_score ∧
    (railingStep t smp g sid rid i).obstacle_details.stairs = i.obstacle_details.stairs ∧
    (railingStep t smp g sid rid i).obstacle_details.door = i.obstacle_details.door ∧
    (railingStep t smp g sid rid i).obstacle_details.stairs_to_door_distance
      = i.obstacle_details.stairs_to_door_distance ∧
    (railingStep t smp g sid rid i).obstacle_details.sidewalk_to_door_distance
      = i.obstacle_details.sidewalk_to_door_distance := by
  simp only [railingStep]; split_ifs <;> simp_all

/-! Score plumbing, mask emptiness, and `analyze` decomposition. -/

lemma calcScore_ok_bounds {info : AccessibilityInfo} {s : Int}
    (h : calcScore info = Except.ok s) : 1 ≤ s ∧ s ≤ 10 := by
  unfold calcScore at h
  repeat' split at h
  all_goals (try cases h)
  all_goals omega

lemma calcScore_isOk {info : AccessibilityInfo}
    (hdoor : info.has_door.getD false = true → info.obstacle_details.door.isSome) :
    ∃ s, calcScore info = Except.ok s := by
  rcases hdd : info.obstacle_details.door with _ | d
  · have hd : info.has_door.getD false = false := by
      by_contra hc
      have h2 := hdoor (by revert hc; cases info.has_door.getD false <;> simp)
      rw [hdd] at h2; simp at h2
    simp [calcScore, hd, hdd]
  · simp only [calcScore, hdd]
    split_ifs <;> exact ⟨_, rfl⟩

lemma maskCoords_row_aux (c : Nat) (y : Nat) :
    ∀ (row : List Nat) (k : Nat),
      ((row.enumFrom k).filterMap
        (fun xv => if xv.2 = c then some (y, xv.1) else none)) = [] ↔ c ∉ row := by
  intro row
  induction row with
  | nil => simp
  | cons v row ih =>
    intro k
    by_cases hv : v = c
    · simp [List.enumFrom, hv]
    · simp only [List.enumFrom, List.filterMap_cons, if_neg hv, ih, List.mem_cons]
      constructor
      · intro h hc
        rcases hc with rfl | hc
        · exact hv rfl
        · exact h hc
      · intro h hc
        exact h (Or.inr hc)

lemma maskCoords_nil_aux (c : Nat) :
    ∀ (g : LabelGrid) (n : Nat),
      ((List.enumFrom n g).flatMap
        (fun yr => yr.2.enum.filterMap
          (fun xv => if xv.2 = c then some (yr.1, xv.1) else none))) = []
      ↔ ∀ row ∈ g, c ∉ row := by
  intro g
  induction g with
  | nil => simp
  | cons row g ih =>
    intro n
    simp only [List.enumFrom, List.flatMap_cons, List.append_eq_nil]
    rw [ih (n + 1), List.forall_mem_cons,
      show row.enum = row.enumFrom 0 from rfl, maskCoords_row_aux c n row 0]

/-- The object mask of class `c` is all-false exactly when no grid cell
carries class id `c`. -/
lemma maskCoords_eq_nil_iff {g : LabelGrid} {c : Nat} :
    maskCoords g c = [] ↔ ∀ row ∈ g, c ∉ row := by
  unfold maskCoords List.enum
  exact maskCoords_nil_aux c g 0

lemma gridSize_zero_rows {g : LabelGrid} (h : gridSize g = 0) :
    ∀ row ∈ g, row = [] := by
  unfold gridSize at h
  intro row hr
  have h2 := List.sum_eq_zero_iff.mp h row.length (List.mem_map_of_mem _ hr)
  exact List.length_eq_zero.mp h2

lemma gridSize_zero_mask {g : LabelGrid} (h : gridSize g = 0) (c : Nat) :
    maskCoords g c = [] := by
  rw [maskCoords_eq_nil_iff]
  intro row hr
  rw [gridSize_zero_rows h row hr]
  simp

lemma analyze_ok_elim {cm : ClassMap} {t : ℚ} {smp : Sampler} {g : LabelGrid}
    {info : AccessibilityInfo} (h : analyze cm t smp g = Except.ok info) :
    ∃ sid did swid bid rid s,
      cm.lookupId ("stairs") = Except.ok sid ∧
      cm.lookupId ("door") = Except.ok did ∧
      cm.lookupId ("sidewalk") = Except.ok swid ∧
      cm.lookupId ("building") = Except.ok bid ∧
      cm.lookupId ("railing") = Except.ok rid ∧
      calcScore (pipeline t smp g sid did swid bid rid) = Except.ok s ∧
      info = { pipeline t smp g sid did swid bid rid with
               accessibility_score := some s } := by
  unfold analyze at h
  repeat' split at h
  all_goals cases h
  exact ⟨_, _, _, _, _, _, by assumption, by assumption, by assumption,
    by assumption, by assumption, by assumption, rfl⟩

lemma analyze_ok_intro {cm : ClassMap} {t : ℚ} {smp : Sampler} {g : LabelGrid}
    {sid did swid bid rid : Nat} {s : Int}
    (h1 : cm.lookupId ("stairs") = Except.ok sid)
    (h2 : cm.lookupId ("door") = Except.ok did)
    (h3 : cm.lookupId ("sidewalk") = Except.ok swid)
    (h4 : cm.lookupId ("building") = Except.ok bid)
    (h5 : cm.lookupId ("railing") = Except.ok rid)
    (h6 : calcScore (pipeline t smp g sid did swid bid rid) = Except.ok s) :
    analyze cm t smp g =
      Except.ok { pipeline t smp g sid did swid bid rid with
                  accessibility_score := some s } := by
  simp only [analyze, h1, h2, h3, h4, h5, h6]

lemma analyze_missing_stairs {cm : ClassMap} (t : ℚ) (smp : Sampler) (g : LabelGrid)
    (h : List.lookup ("stairs") cm = none) :
    analyze cm t smp g = Except.error (PyError.keyError ("stairs")) := by
  simp only [analyze, ClassMap.lookupId, h]

/-- Closed form of `_calculate_accessibility_score`: base 10, the additive
adjustments of the score formula, then the clamp to `[1, 10]`. -/
lemma calcScore_formula {x : AccessibilityInfo} {s : Int} (h : calcScore x = Except.ok s) :
    s = max 1 (min 10 (10
      - (if "stairs_at_entrance" ∈ x.obstacles then 5 else 0)
      + (if "stairs_at_entrance" ∈ x.obstacles ∧ x.has_stairs_railing.getD false = true
          then 1 else 0)
      - (if "stairs_at_entrance" ∉ x.obstacles ∧ x.has_stairs = true then 2 else 0)
      - (if "disconnected_sidewalk" ∈ x.obstacles then 2 else 0)
      - (if x.has_door.getD false = true ∧
            x.obstacle_details.door.map DoorDetail.estimated_width = some ("narrow")
          then 3 else 0)
      + (if x.has_door.getD false = true ∧
            x.obstacle_details.door.map DoorDetail.estimated_width = some ("wide")
          then 1 else 0))) := by
  unfold calcScore at h
  repeat' split at h
  all_goals (try cases h)
  all_goals simp_all [List.elem_iff]

/-- C1: for every label grid accepted by `analyze`, the returned
`accessibility_score` is an integer in the closed range `[1, 10]`,
whatever flags, obstacle tags and width buckets arose. -/
theorem analyze_score_in_range {cm : ClassMap} {t : ℚ} {smp : Sampler}
    {g : LabelGrid} {info : AccessibilityInfo} {s : Int}
    (h : analyze cm t smp g = Except.ok info)
    (hs : info.accessibility_score = some s) : 1 ≤ s ∧ s ≤ 10 := by
  obtain ⟨sid, did, swid, bid, rid, s', h1, h2, h3, h4, h5, h6, rfl⟩ := analyze_ok_elim h
  have hb := calcScore_ok_bounds h6
  simp only [Option.some.injEq] at hs
  omega

/-- C1 witness: the range theorem applied to the empty grid, whose score
evaluates to 10. -/
theorem analyze_score_in_range_witness : 1 ≤ (10 : Int) ∧ (10 : Int) ≤ 10 :=
  analyze_score_in_range
    (show analyze sampleClassMap 5 defaultSampler [] = Except.ok quietInfo by
      with_unfolding_all rfl) rfl

/-- C2: the score returned by `analyze` is the clamp to `[1, 10]` of
`10 - 5·[stairs_at_entrance] + 1·[stairs_at_entrance ∧ railing]
- 2·[¬stairs_at_entrance ∧ stairs] - 2·[disconnected_sidewalk]
- 3·[door ∧ narrow] + 1·[door ∧ wide]`: the stairs branches are mutually
exclusive, and the sidewalk and door adjustments apply independently. -/
theorem analyze_score_formula {cm : ClassMap} {t : ℚ} {smp : Sampler}
    {g : LabelGrid} {info : AccessibilityInfo} {s : Int}
    (h : analyze cm t smp g = Except.ok info)
    (hs : info.accessibility_score = some s) :
    s = max 1 (min 10 (10
      - (if "stairs_at_entrance" ∈ info.obstacles then 5 else 0)
      + (if "stairs_at_entrance" ∈ info.obstacles ∧
            info.has_stairs_railing.getD false = true then 1 else 0)
      - (if "stairs_at_entrance" ∉ info.obstacles ∧ info.has_stairs = true then 2 else 0)
      - (if "disconnected_sidewalk" ∈ info.obstacles then 2 else 0)
      - (if info.has_door.getD false = true ∧
            info.obstacle_details.door.map DoorDetail.estimated_width = some ("narrow")
          then 3 else 0)
      + (if info.has_door.getD false = true ∧
            info.obstacle_details.door.map DoorDetail.estimated_width = some ("wide")
          then 1 else 0))) := by
  obtain ⟨sid, did, swid, bid, rid, s', h1, h2, h3, h4, h5, h6, rfl⟩ := analyze_ok_elim h
  simp only [Option.some.injEq] at hs
  subst hs
  exact calcScore_formula h6

/-- C2 witness: the formula instantiated on a grid with one stairs cell
adjacent to one wide door cell (`10 - 5 + 1` clamped, i.e. 6). -/
theorem analyze_score_formula_witness :
    (6 : Int) = max 1 (min 10 (10
      - (if "stairs_at_entrance" ∈ stairsDoorInfo.obstacles then 5 else 0)
      + (if "stairs_at_entrance" ∈ stairsDoorInfo.obstacles ∧
            stairsDoorInfo.has_stairs_railing.getD false = true then 1 else 0)
      - (if "stairs_at_entrance" ∉ stairsDoorInfo.obstacles ∧
            stairsDoorInfo.has_stairs = true then 2 else 0)
      - (if "disconnected_sidewalk" ∈ stairsDoorInfo.obstacles then 2 else 0)
      - (if stairsDoorInfo.has_door.getD false = true ∧
            stairsDoorInfo.obstacle_details.door.map DoorDetail.estimated_width
              = some ("narrow") then 3 else 0)
      + (if stairsDoorInfo.has_door.getD false = true ∧
            stairsDoorInfo.obstacle_details.door.map DoorDetail.estimated_width
              = some ("wide") then 1 else 0))) :=
  analyze_score_formula
    (show analyze sampleClassMap 5 defaultSampler [[1, 2]] = Except.ok stairsDoorInfo by
      with_unfolding_all rfl) rfl

/-- C9: every result of `analyze` has `has_ramp = false`; the engine can
never detect a ramp. -/
theorem analyze_never_ramp {cm : ClassMap} {t : ℚ} {smp : Sampler} {g : LabelGrid}
    {info : AccessibilityInfo} (h : analyze cm t smp g = Except.ok info) :
    info.has_ramp = false := by
  obtain ⟨sid, did, swid, bid, rid, s, h1, h2, h3, h4, h5, h6, rfl⟩ := analyze_ok_elim h
  simp [pipeline, railingStep_preserved, buildingStep_preserved, sidewalkStep_preserved,
    doorStep_preserved, stairsStep_preserved, initInfo]

/-- C9 witness: the ramp theorem applied to the empty grid. -/
theorem analyze_never_ramp_witness : quietInfo.has_ramp = false :=
  analyze_never_ramp
    (show analyze sampleClassMap 5 defaultSampler [] = Except.ok quietInfo by
      with_unfolding_all rfl)

/-- C7: in every result of `analyze`, `entrance_accessible` is false exactly
when stairs and a door are both present and the computed (recorded)
stairs-to-door minimum distance is strictly below the threshold, and the
`stairs_at_entrance` tag is present exactly in that same case. -/
theorem analyze_entrance_accessible_iff {cm : ClassMap} {t : ℚ} {smp : Sampler}
    {g : LabelGrid} {sid did : Nat}
    (h1 : cm.lookupId ("stairs") = Except.ok sid)
    (h2 : cm.lookupId ("door") = Except.ok did)
    {info : AccessibilityInfo} (h : analyze cm t smp g = Except.ok info) :
    (info.entrance_accessible = false ↔
      (info.has_stairs = true ∧ info.has_door = some true ∧
        optDistLt info.obstacle_details.stairs_to_door_distance.join t = true)) ∧
    ("stairs_at_entrance" ∈ info.obstacles ↔ info.entrance_accessible = false) := by
  obtain ⟨sid', did', swid', bid', rid', s, h1', h2', h3, h4, h5, h6, rfl⟩ := analyze_ok_elim h
  rw [h1] at h1'; cases h1'
  rw [h2] at h2'; cases h2'
  constructor
  · simp [pipeline, railingStep_preserved, buildingStep_preserved, sidewalkStep_preserved,
      doorStep_entrance, doorStep_preserved, doorStep_has_door, doorStep_std_distance,
      stairsStep_preserved, stairsStep_has_stairs, initInfo]
    split_ifs <;> simp_all [optDistLt] <;> tauto
  · simp [pipeline, railingStep_preserved, buildingStep_preserved, sidewalkStep_preserved,
      sidewalkStep_obstacles, doorStep_entrance, doorStep_obstacles, doorStep_preserved,
      doorStep_has_door, stairsStep_preserved, stairsStep_has_stairs, stairsStep_obstacles,
      initInfo]

/-- C7 witness: the characterisation applied to a grid with one stairs cell
adjacent to one door cell at threshold 5. -/
theorem analyze_entrance_accessible_iff_witness :
    ((stairsDoorInfo.entrance_accessible = false ↔
      (stairsDoorInfo.has_stairs = true ∧ stairsDoorInfo.has_door = some true ∧
        optDistLt stairsDoorInfo.obstacle_details.stairs_to_door_distance.join 5 = true)) ∧
    ("stairs_at_entrance" ∈ stairsDoorInfo.obstacles ↔
      stairsDoorInfo.entrance_accessible = false)) :=
  analyze_entrance_accessible_iff
    (show sampleClassMap.lookupId ("stairs") = Except.ok 1 from rfl)
    (show sampleClassMap.lookupId ("door") = Except.ok 2 from rfl)
    (show analyze sampleClassMap 5 defaultSampler [[1, 2]] = Except.ok stairsDoorInfo by
      with_unfolding_all rfl)

/-- C10: the keys `has_door`, `has_sidewalk`, `has_building`, `has_railing`
are present (with value true) exactly when the class is detected and absent
otherwise; `has_stairs_railing` is present (with value true) exactly when its
detection succeeds — railing present, stairs present, and their distance
strictly below the threshold — and absent otherwise; `accessibility_score`
is present in every result (the non-`Option` fields are present by
construction). -/
theorem analyze_conditional_keys {cm : ClassMap} {t : ℚ} {smp : Sampler}
    {g : LabelGrid} {sid did swid bid rid : Nat}
    (h1 : cm.lookupId ("stairs") = Except.ok sid)
    (h2 : cm.lookupId ("door") = Except.ok did)
    (h3 : cm.lookupId ("sidewalk") = Except.ok swid)
    (h4 : cm.lookupId ("building") = Except.ok bid)
    (h5 : cm.lookupId ("railing") = Except.ok rid)
    {info : AccessibilityInfo} (h : analyze cm t smp g = Except.ok info) :
    (info.has_door = if maskCoords g did ≠ [] then some true else none) ∧
    (info.has_sidewalk = if maskCoords g swid ≠ [] then some true else none) ∧
    (info.has_building = if maskCoords g bid ≠ [] then some true else none) ∧
    (info.has_railing = if maskCoords g rid ≠ [] then some true else none) ∧
    (info.has_stairs_railing =
      if maskCoords g rid ≠ [] ∧ maskCoords g sid ≠ [] ∧
          optDistLt (calcObjectDistanceSq smp (maskCoords g rid) (maskCoords g sid)) t
            = true
        then some true else none) ∧
    info.accessibility_score.isSome = true := by
  obtain ⟨sid', did', swid', bid', rid', s, h1', h2', h3', h4', h5', h6, rfl⟩ :=
    analyze_ok_elim h
  rw [h1] at h1'; cases h1'
  rw [h2] at h2'; cases h2'
  rw [h3] at h3'; cases h3'
  rw [h4] at h4'; cases h4'
  rw [h5] at h5'; cases h5'
  refine ⟨?_, ?_, ?_, ?_, ?_, rfl⟩
  all_goals
    simp [pipeline, railingStep_preserved, railingStep_has_railing,
      railingStep_has_stairs_railing, buildingStep_preserved, buildingStep_has_building,
      sidewalkStep_preserved, sidewalkStep_has_sidewalk, doorStep_preserved,
      doorStep_has_door, stairsStep_preserved, stairsStep_has_stairs, initInfo]

lemma pipeline_door_consistent (t : ℚ) (smp : Sampler) (g : LabelGrid)
    (sid did swid bid rid : Nat) :
    (pipeline t smp g sid did swid bid rid).has_door.getD false = true →
    (pipeline t smp g sid did swid bid rid).obstacle_details.door.isSome := by
  simp [pipeline, railingStep_preserved, buildingStep_preserved, sidewalkStep_preserved,
    doorStep_preserved, doorStep_has_door, doorStep_door_detail, stairsStep_preserved,
    initInfo]
  split_ifs <;> simp_all

lemma pipeline_empty (t : ℚ) (smp : Sampler) (g : LabelGrid)
    (sid did swid bid rid : Nat) (hg : gridSize g = 0) :
    pipeline t smp g sid did swid bid rid = initInfo := by
  simp [pipeline, railingStep, buildingStep, sidewalkStep, doorStep, stairsStep,
    gridSize_zero_mask hg]

/-- C3 amended: on an empty or zero-dimension grid, `analyze` returns a
normal result (all presence flags false, score 10) rather than an
`InvalidInput` error; whenever the five tracked class names resolve,
`analyze` returns a result and never raises, and a class id absent from the
grid yields an all-false (empty) mask. -/
theorem empty_grid_ok_amended :
    (∀ (cm : ClassMap) (t : ℚ) (smp : Sampler) (g : LabelGrid)
        (sid did swid bid rid : Nat),
        cm.lookupId ("stairs") = Except.ok sid →
        cm.lookupId ("door") = Except.ok did →
        cm.lookupId ("sidewalk") = Except.ok swid →
        cm.lookupId ("building") = Except.ok bid →
        cm.lookupId ("railing") = Except.ok rid →
        (∃ info, analyze cm t smp g = Except.ok info) ∧
        (gridSize g = 0 → analyze cm t smp g = Except.ok quietInfo)) ∧
    (∀ (g : LabelGrid) (c : Nat), (∀ row ∈ g, c ∉ row) → maskCoords g c = []) := by
  constructor
  · intro cm t smp g sid did swid bid rid h1 h2 h3 h4 h5
    obtain ⟨s, hs⟩ := calcScore_isOk (pipeline_door_consistent t smp g sid did swid bid rid)
    constructor
    · exact ⟨_, analyze_ok_intro h1 h2 h3 h4 h5 hs⟩
    · intro hg
      have hp := pipeline_empty t smp g sid did swid bid rid hg
      have hs10 : calcScore (pipeline t smp g sid did swid bid rid) = Except.ok 10 := by
        rw [hp]; rfl
      rw [analyze_ok_intro h1 h2 h3 h4 h5 hs10, hp]
      rfl
  · intro g c h
    exact maskCoords_eq_nil_iff.mpr h

/-- C4 amended: when the ClassMap has no `stairs` entry, `analyze` raises
`KeyError('stairs')` instead of completing; when the `stairs` entry resolves
but the grid has no stairs-class cell, `analyze` reports `has_stairs = false`
and neither `stairs` nor `stairs_at_entrance` appears among the obstacles. -/
theorem no_stairs_amended :
    (∀ (cm : ClassMap) (t : ℚ) (smp : Sampler) (g : LabelGrid),
        List.lookup ("stairs") cm = none →
        analyze cm t smp g = Except.error (PyError.keyError ("stairs"))) ∧
    (∀ (cm : ClassMap) (t : ℚ) (smp : Sampler) (g : LabelGrid) (sid : Nat)
        (info : AccessibilityInfo),
        cm.lookupId ("stairs") = Except.ok sid →
        analyze cm t smp g = Except.ok info →
        maskCoords g sid = [] →
        info.has_stairs = false ∧ "stairs" ∉ info.obstacles ∧
          "stairs_at_entrance" ∉ info.obstacles) := by
  constructor
  · intro cm t smp g h
    exact analyze_missing_stairs t smp g h
  · intro cm t smp g sid info h1 h hsc
    obtain ⟨sid', did, swid, bid, rid, s, h1', h2, h3, h4, h5, h6, rfl⟩ := analyze_ok_elim h
    rw [h1] at h1'; cases h1'
    refine ⟨?_, ?_, ?_⟩ <;>
      simp [pipeline, railingStep_preserved, buildingStep_preserved,
        sidewalkStep_preserved, sidewalkStep_obstacles, doorStep_preserved,
        doorStep_obstacles, stairsStep_preserved, stairsStep_has_stairs,
        stairsStep_obstacles, hsc, initInfo] <;>
      try (split_ifs <;> simp)

/-- C6: the distance estimator returns infinity (`none`) when either
coordinate list is empty; an infinite distance never satisfies the
strictly-below-threshold test; and when both the stairs and door masks are
empty, `stairs_to_door_distance` is never recorded and the
`stairs_at_entrance` tag is never added. -/
theorem infinite_distance_never_tags :
    (∀ (smp : Sampler) (l1 l2 : List (Nat × Nat)), l1 = [] ∨ l2 = [] →
        calcObjectDistanceSq smp l1 l2 = none) ∧
    (∀ t : ℚ, optDistLt none t = false) ∧
    (∀ (cm : ClassMap) (t : ℚ) (smp : Sampler) (g : LabelGrid) (sid did : Nat)
        (info : AccessibilityInfo),
        cm.lookupId ("stairs") = Except.ok sid →
        cm.lookupId ("door") = Except.ok did →
        analyze cm t smp g = Except.ok info →
        maskCoords g sid = [] → maskCoords g did = [] →
        info.obstacle_details.stairs_to_door_distance = none ∧
          "stairs_at_entrance" ∉ info.obstacles) := by
  refine ⟨?_, fun _ => rfl, ?_⟩
  · intro smp l1 l2 h
    unfold calcObjectDistanceSq
    rcases h with rfl | rfl <;> simp
  · intro cm t smp g sid did info h1 h2 h hsc hdc
    obtain ⟨sid', did', swid, bid, rid, s, h1', h2', h3, h4, h5, h6, rfl⟩ := analyze_ok_elim h
    rw [h1] at h1'; cases h1'
    rw [h2] at h2'; cases h2'
    constructor <;>
      simp [pipeline, railingStep_preserved, buildingStep_preserved,
        sidewalkStep_preserved, sidewalkStep_obstacles, doorStep_preserved,
        doorStep_obstacles, doorStep_std_distance, stairsStep_preserved,
        stairsStep_has_stairs, stairsStep_obstacles, hsc, hdc, initInfo] <;>
      try (split_ifs <;> simp)

lemma filterMap_get_length (l : List (Nat × Nat)) :
    ∀ (idx : List Nat), (∀ i ∈ idx, i < l.length) →
      (idx.filterMap (fun i => l.get? i)).length = idx.length := by
  intro idx
  induction idx with
  | nil => simp
  | cons i idx ih =>
    intro h
    have hi : i < l.length := h i (by simp)
    have hv : l.get? i = some (l.get ⟨i, hi⟩) := List.get?_eq_get hi
    simp only [List.filterMap_cons, hv, List.length_cons]
    rw [ih (fun j hj => h j (by simp [hj]))]

lemma samplePoints_length (smp : Sampler) (l : List (Nat × Nat)) (m : Nat)
    (hl : l ≠ []) (hm : m ≤ l.length) : (samplePoints smp l m).length = m := by
  unfold samplePoints sampleIndices
  split_ifs with h
  · rw [filterMap_get_length l _
      (fun i hi => smp.mem_lt _ _ (List.length_pos.mpr hl) i hi), smp.length_eq]
  · have he : m = l.length := le_antisymm hm (not_lt.mp h)
    rw [filterMap_get_length l _ (fun i hi => List.mem_range.mp hi), List.length_range, he]

lemma minPairSq_eq_flatMap (s1 s2 : List (Nat × Nat)) :
    minPairSq s1 s2 =
      (s1.flatMap (fun p => s2.map (fun q => sqDist p q))).foldl minUpdate none := by
  unfold minPairSq
  generalize (none : Option Nat) = acc
  induction s1 generalizing acc with
  | nil => simp
  | cons p s1 ih =>
    simp only [List.foldl_cons, List.flatMap_cons, List.foldl_append, ih, List.foldl_map]

lemma foldl_minUpdate_some :
    ∀ (ds : List Nat) (acc : Option Nat) (m : Nat), ds.foldl minUpdate acc = some m →
      (acc = some m ∨ m ∈ ds) ∧ (∀ d ∈ ds, m ≤ d) ∧ (∀ a, acc = some a → m ≤ a) := by
  intro ds
  induction ds with
  | nil =>
    intro acc m h
    simp only [List.foldl_nil] at h
    refine ⟨Or.inl h, by simp, fun a ha => ?_⟩
    rw [h] at ha
    injection ha with ha
    omega
  | cons d ds ih =>
    intro acc m h
    simp only [List.foldl_cons] at h
    obtain ⟨hsrc, hall, hacc⟩ := ih (minUpdate acc d) m h
    rcases acc with _ | a
    · simp only [minUpdate] at hsrc hacc
      have hmd : m ≤ d := hacc d rfl
      refine ⟨?_, fun e he => ?_, fun a ha => by cases ha⟩
      · rcases hsrc with hs | hs
        · injection hs with hs
          subst hs
          exact Or.inr (List.mem_cons_self d ds)
        · exact Or.inr (List.mem_cons_of_mem d hs)
      · rcases List.mem_cons.mp he with rfl | he
        · exact hmd
        · exact hall e he
    · simp only [minUpdate] at hsrc hacc
      have hma : m ≤ min a d := hacc _ rfl
      refine ⟨?_, fun e he => ?_, fun b hb => ?_⟩
      · rcases hsrc with hs | hs
        · injection hs with hs
          subst hs
          rcases Nat.le_total a d with hle | hle
          · left
            rw [Nat.min_eq_left hle]
          · right
            rw [Nat.min_eq_right hle]
            exact List.mem_cons_self d ds
        · exact Or.inr (List.mem_cons_of_mem d hs)
      · rcases List.mem_cons.mp he with rfl | he
        · exact le_trans hma (Nat.min_le_right a e)
        · exact hall e he
      · injection hb with hb
        subst hb
        exact le_trans hma (Nat.min_le_left a d)

/-- C5 amended: the estimator samples `min(100, |A|, |B|)` points from each
list — all points of a list exactly when its length equals that joint
minimum, and that many sampler indices (drawn with replacement, so
duplicates are possible) when it is longer — and returns the minimum squared
distance over all sampled cross pairs, hence O(min(|A|,|B|,100)²) pairs. -/
theorem sampling_amended (smp : Sampler) (l1 l2 : List (Nat × Nat))
    (h1 : l1 ≠ []) (h2 : l2 ≠ []) :
    (samplePoints smp l1 (sampleCount l1 l2)).length = sampleCount l1 l2 ∧
    (samplePoints smp l2 (sampleCount l1 l2)).length = sampleCount l1 l2 ∧
    sampleCount l1 l2 = min 100 (min l1.length l2.length) ∧
    calcObjectDistanceSq smp l1 l2 =
      minPairSq (samplePoints smp l1 (sampleCount l1 l2))
        (samplePoints smp l2 (sampleCount l1 l2)) ∧
    (∀ d, calcObjectDistanceSq smp l1 l2 = some d →
      (∃ p ∈ samplePoints smp l1 (sampleCount l1 l2),
        ∃ q ∈ samplePoints smp l2 (sampleCount l1 l2), d = sqDist p q) ∧
      (∀ p ∈ samplePoints smp l1 (sampleCount l1 l2),
        ∀ q ∈ samplePoints smp l2 (sampleCount l1 l2), d ≤ sqDist p q)) := by
  have hc1 : sampleCount l1 l2 ≤ l1.length :=
    le_trans (Nat.min_le_right _ _) (Nat.min_le_left _ _)
  have hc2 : sampleCount l1 l2 ≤ l2.length :=
    le_trans (Nat.min_le_right _ _) (Nat.min_le_right _ _)
  have hcalc : calcObjectDistanceSq smp l1 l2 =
      minPairSq (samplePoints smp l1 (sampleCount l1 l2))
        (samplePoints smp l2 (sampleCount l1 l2)) := by
    unfold calcObjectDistanceSq
    rw [if_neg]
    push_neg
    exact ⟨fun hl => h1 (List.length_eq_zero.mp hl), fun hl => h2 (List.length_eq_zero.mp hl)⟩
  refine ⟨samplePoints_length smp l1 _ h1 hc1, samplePoints_length smp l2 _ h2 hc2,
    rfl, hcalc, ?_⟩
  intro d hd
  rw [hcalc, minPairSq_eq_flatMap] at hd
  obtain ⟨hsrc, hall, _⟩ := foldl_minUpdate_some _ _ _ hd
  rcases hsrc with hs | hs
  · cases hs
  · constructor
    · obtain ⟨p, hp, hq⟩ := List.mem_flatMap.mp hs
      obtain ⟨q, hq2, heq⟩ := List.mem_map.mp hq
      exact ⟨p, hp, q, hq2, heq.symm⟩
    · intro p hp q hq
      exact hall _ (List.mem_flatMap.mpr ⟨p, hp, List.mem_map.mpr ⟨q, hq, rfl⟩⟩)

set_option maxRecDepth 8000 in
/-- C5 counterexample: with a 200-point first list and a 1-point second
list, the first list exceeds 100 points yet only `min(100, 200, 1) = 1`
point is sampled from it, not 100 as the claim states. -/
theorem sampling_count_cex :
    100 < row200.length ∧
    (samplePoints defaultSampler row200 (sampleCount row200 [(50, 0)])).length ≠ 100 := by
  constructor
  · decide
  · decide

/-- C5 witness: the amended sampling theorem applied to a two-point and a
one-point list. -/
theorem sampling_amended_witness :
    (samplePoints defaultSampler [(0, 0), (0, 1)]
        (sampleCount [(0, 0), (0, 1)] [(5, 5)])).length
      = sampleCount [(0, 0), (0, 1)] [(5, 5)] ∧
    (samplePoints defaultSampler [(5, 5)]
        (sampleCount [(0, 0), (0, 1)] [(5, 5)])).length
      = sampleCount [(0, 0), (0, 1)] [(5, 5)] ∧
    sampleCount [(0, 0), (0, 1)] [(5, 5)]
      = min 100 (min ([(0, 0), (0, 1)] : List (Nat × Nat)).length
          ([(5, 5)] : List (Nat × Nat)).length) ∧
    calcObjectDistanceSq defaultSampler [(0, 0), (0, 1)] [(5, 5)] =
      minPairSq (samplePoints defaultSampler [(0, 0), (0, 1)]
          (sampleCount [(0, 0), (0, 1)] [(5, 5)]))
        (samplePoints defaultSampler [(5, 5)]
          (sampleCount [(0, 0), (0, 1)] [(5, 5)])) :=
  let h := sampling_amended defaultSampler [(0, 0), (0, 1)] [(5, 5)]
    (by simp) (by simp)
  ⟨h.1, h.2.1, h.2.2.1, h.2.2.2.1⟩

/-- C3 counterexample: the empty grid has size 0, yet `analyze` returns a
normal `Except.ok` result with score 10 — not an error result. -/
theorem empty_grid_cex :
    gridSize ([] : LabelGrid) = 0 ∧
    analyze sampleClassMap 5 defaultSampler [] = Except.ok quietInfo :=
  ⟨rfl, by with_unfolding_all rfl⟩

/-- C3 witness: the amended theorem applied to the empty grid and to a
one-cell grid without class id 1. -/
theorem empty_grid_ok_amended_witness :
    (∃ info, analyze sampleClassMap 5 defaultSampler [] = Except.ok info) ∧
    analyze sampleClassMap 5 defaultSampler [] = Except.ok quietInfo ∧
    maskCoords [[0]] 1 = [] :=
  let h := empty_grid_ok_amended.1 sampleClassMap 5 defaultSampler [] 1 2 3 4 5
    rfl rfl rfl rfl rfl
  ⟨h.1, h.2 rfl, empty_grid_ok_amended.2 [[0]] 1 (by simp)⟩

/-- C4 counterexample: a ClassMap without a `stairs` entry makes `analyze`
raise `KeyError('stairs')` instead of completing with `has_stairs = false`. -/
theorem no_stairs_cex :
    List.lookup ("stairs") noStairsClassMap = none ∧
    analyze noStairsClassMap 5 defaultSampler [[0]] =
      Except.error (PyError.keyError ("stairs")) :=
  ⟨rfl, by with_unfolding_all rfl⟩

/-- C4 witness: the amended theorem applied to a stairs-less ClassMap and to
a sidewalk-only grid. -/
theorem no_stairs_amended_witness :
    analyze noStairsClassMap 5 defaultSampler [[0]]
      = Except.error (PyError.keyError ("stairs")) ∧
    (sidewalkInfo.has_stairs = false ∧ "stairs" ∉ sidewalkInfo.obstacles ∧
      "stairs_at_entrance" ∉ sidewalkInfo.obstacles) :=
  ⟨no_stairs_amended.1 noStairsClassMap 5 defaultSampler [[0]] rfl,
   no_stairs_amended.2 sampleClassMap 5 defaultSampler [[3]] 1 sidewalkInfo rfl
     (by with_unfolding_all rfl) rfl⟩

/-- C6 witness: the estimator on an empty list, the threshold test on
infinity, and `analyze` on a sidewalk-only grid. -/
theorem infinite_distance_never_tags_witness :
    calcObjectDistanceSq defaultSampler [] [(0, 0)] = none ∧
    optDistLt none 5 = false ∧
    (sidewalkInfo.obstacle_details.stairs_to_door_distance = none ∧
      "stairs_at_entrance" ∉ sidewalkInfo.obstacles) :=
  ⟨infinite_distance_never_tags.1 defaultSampler [] [(0, 0)] (Or.inl rfl),
   infinite_distance_never_tags.2.1 5,
   infinite_distance_never_tags.2.2 sampleClassMap 5 defaultSampler [[3]] 1 2 sidewalkInfo
     rfl rfl (by with_unfolding_all rfl) rfl rfl⟩

/-- C10 witness: the key-presence theorem applied to a grid with one stairs
cell next to one railing cell, where `has_stairs_railing` is present with
value true while the door, sidewalk and building keys are absent. -/
theorem analyze_conditional_keys_witness :
    (railingInfo.has_door = if maskCoords [[1, 5]] 2 ≠ [] then some true else none) ∧
    (railingInfo.has_sidewalk = if maskCoords [[1, 5]] 3 ≠ [] then some true else none) ∧
    (railingInfo.has_building = if maskCoords [[1, 5]] 4 ≠ [] then some true else none) ∧
    (railingInfo.has_railing = if maskCoords [[1, 5]] 5 ≠ [] then some true else none) ∧
    (railingInfo.has_stairs_railing =
      if maskCoords [[1, 5]] 5 ≠ [] ∧ maskCoords [[1, 5]] 1 ≠ [] ∧
          optDistLt (calcObjectDistanceSq defaultSampler
            (maskCoords [[1, 5]] 5) (maskCoords [[1, 5]] 1)) 5 = true
        then some true else none) ∧
    railingInfo.accessibility_score.isSome = true :=
  analyze_conditional_keys
    (show sampleClassMap.lookupId ("stairs") = Except.ok 1 from rfl)
    (show sampleClassMap.lookupId ("door") = Except.ok 2 from rfl)
    (show sampleClassMap.lookupId ("sidewalk") = Except.ok 3 from rfl)
    (show sampleClassMap.lookupId ("building") = Except.ok 4 from rfl)
    (show sampleClassMap.lookupId ("railing") = Except.ok 5 from rfl)
    (show analyze sampleClassMap 5 defaultSampler [[1, 5]] = Except.ok railingInfo by
      with_unfolding_all rfl)

/-- The decision `sqrtLt` agrees with the real square root: the source's
comparison `np.sqrt(d) < t` holds exactly when `sqrtLt d t`. -/
lemma sqrtLt_iff (d : Nat) (t : ℚ) : sqrtLt d t = true ↔ Real.sqrt (d : ℝ) < (t : ℝ) := by
  unfold sqrtLt
  rw [decide_eq_true_iff]
  constructor
  · rintro ⟨ht, hd⟩
    have ht' : (0 : ℝ) < (t : ℝ) := by exact_mod_cast ht
    rw [Real.sqrt_lt' ht']
    exact_mod_cast hd
  · intro h
    have ht' : (0 : ℝ) < (t : ℝ) := lt_of_le_of_lt (Real.sqrt_nonneg _) h
    rw [Real.sqrt_lt' ht'] at h
    constructor
    · exact_mod_cast ht'
    · exact_mod_cast h

/-- The decision `sqrtGt` agrees with the real square root: the source's
comparison `np.sqrt(d) > t` holds exactly when `sqrtGt d t`. -/
lemma sqrtGt_iff (d : Nat) (t : ℚ) : sqrtGt d t = true ↔ (t : ℝ) < Real.sqrt (d : ℝ) := by
  unfold sqrtGt
  rw [decide_eq_true_iff]
  by_cases ht : t < 0
  · refine iff_of_true (Or.inl ht) ?_
    have h0 : (t : ℝ) < 0 := by exact_mod_cast ht
    exact lt_of_lt_of_le h0 (Real.sqrt_nonneg _)
  · have ht' : (0 : ℝ) ≤ (t : ℝ) := by
      push_neg at ht
      exact_mod_cast ht
    rw [Real.lt_sqrt ht']
    constructor
    · rintro (hc | hc)
      · exact absurd hc ht
      · exact_mod_cast hc
    · intro hc
      right
      exact_mod_cast hc

lemma nearestStep_eq (dist : ℚ → ℚ → ℚ → ℚ → ℚ) (lat lng : ℚ)
    (acc : Option ℚ × Option Facility) (f : Facility) :
    nearestStep dist lat lng acc f =
      if f.eligible then
        (if ltMinDist (facDist dist lat lng f) acc.1
          then (some (facDist dist lat lng f), some f) else acc)
      else acc := by
  unfold nearestStep Facility.eligible Facility.missingId
  rcases f.wfcltId with _ | w <;> split_ifs <;> simp_all

lemma nearestFold_some (dist : ℚ → ℚ → ℚ → ℚ → ℚ) (lat lng : ℚ) :
    ∀ (fs : List Facility) (d : ℚ) (f0 : Facility),
      fs.foldl (nearestStep dist lat lng) (some d, some f0) =
        match nearestFacilitySpec dist lat lng fs with
        | none => (some d, some f0)
        | some gg => if facDist dist lat lng gg < d
            then (some (facDist dist lat lng gg), some gg) else (some d, some f0) := by
  intro fs
  induction fs with
  | nil => intro d f0; rfl
  | cons f fs ih =>
    intro d f0
    rw [List.foldl_cons, nearestStep_eq]
    by_cases he : f.eligible
    · simp only [he, if_true]
      by_cases hlt : facDist dist lat lng f < d
      · have hl : ltMinDist (facDist dist lat lng f) (some d, some f0).1 = true := by
          simp [ltMinDist, hlt]
        rw [if_pos hl, ih]
        rcases hspec : nearestFacilitySpec dist lat lng fs with _ | gg
        · simp [nearestFacilitySpec, he, hspec, hlt]
        · simp only [nearestFacilitySpec, he, hspec, if_true]
          by_cases hgg : facDist dist lat lng gg < facDist dist lat lng f
          · simp [hgg, lt_trans hgg hlt]
          · simp [hgg, hlt]
      · have hl : ltMinDist (facDist dist lat lng f) (some d, some f0).1 = false := by
          simp [ltMinDist]; exact le_of_not_lt hlt
        rw [if_neg (by simp [hl]), ih]
        rcases hspec : nearestFacilitySpec dist lat lng fs with _ | gg
        · simp [nearestFacilitySpec, he, hspec, hlt]
        · simp only [nearestFacilitySpec, he, hspec]
          by_cases hgg : facDist dist lat lng gg < facDist dist lat lng f
          · simp [hgg]
          · have : ¬ facDist dist lat lng gg < d := by
              intro hc
              exact hgg (lt_of_lt_of_le hc (le_of_not_lt hlt))
            simp [hgg, hlt, this]
    · simp only [he, if_false, Bool.false_eq_true]
      rw [ih]
      simp [nearestFacilitySpec, he]

lemma nearestFold_none (dist : ℚ → ℚ → ℚ → ℚ → ℚ) (lat lng : ℚ) :
    ∀ fs : List Facility,
      fs.foldl (nearestStep dist lat lng) (none, none) =
        match nearestFacilitySpec dist lat lng fs with
        | none => (none, none)
        | some gg => (some (facDist dist lat lng gg), some gg) := by
  intro fs
  induction fs with
  | nil => rfl
  | cons f fs ih =>
    rw [List.foldl_cons, nearestStep_eq]
    by_cases he : f.eligible
    · simp only [he, if_true, ltMinDist, if_pos rfl]
      rw [nearestFold_some]
      rcases hspec : nearestFacilitySpec dist lat lng fs with _ | gg
      · simp [nearestFacilitySpec, he, hspec]
      · simp only [nearestFacilitySpec, he, hspec]
        by_cases hgg : facDist dist lat lng gg < facDist dist lat lng f
        · simp [hgg]
        · simp [hgg]
    · simp only [he, if_false, Bool.false_eq_true]
      rw [ih]
      simp [nearestFacilitySpec, he]

lemma find_nearest_eq_spec (dist : ℚ → ℚ → ℚ → ℚ → ℚ) (lat lng : ℚ)
    (fs : List Facility) :
    find_nearest_facility dist lat lng fs = nearestFacilitySpec dist lat lng fs := by
  unfold find_nearest_facility
  rw [nearestFold_none]
  rcases nearestFacilitySpec dist lat lng fs with _ | gg <;> rfl

lemma spec_none_iff (dist : ℚ → ℚ → ℚ → ℚ → ℚ) (lat lng : ℚ) :
    ∀ fs : List Facility,
      nearestFacilitySpec dist lat lng fs = none ↔ ∀ f ∈ fs, f.eligible = false := by
  intro fs
  induction fs with
  | nil => simp [nearestFacilitySpec]
  | cons f fs ih =>
    by_cases he : f.eligible
    · simp only [nearestFacilitySpec, he, if_true]
      rcases hspec : nearestFacilitySpec dist lat lng fs with _ | gg
      · simp [hspec, he, List.forall_mem_cons]
      · simp only [hspec]
        split_ifs <;> simp [he, List.forall_mem_cons]
    · rw [Bool.not_eq_true] at he
      simp only [nearestFacilitySpec, he, Bool.false_eq_true, if_false, ih,
        List.forall_mem_cons]
      simp [he]

lemma spec_some (dist : ℚ → ℚ → ℚ → ℚ → ℚ) (lat lng : ℚ) :
    ∀ (fs : List Facility) (f : Facility),
      nearestFacilitySpec dist lat lng fs = some f →
        f.eligible = true ∧ f ∈ fs ∧
        ∀ gg ∈ fs, gg.eligible = true →
          facDist dist lat lng f ≤ facDist dist lat lng gg := by
  intro fs
  induction fs with
  | nil => intro f h; cases h
  | cons hd tl ih =>
    intro f h
    by_cases he : hd.eligible
    · simp only [nearestFacilitySpec, he, if_true] at h
      rcases hspec : nearestFacilitySpec dist lat lng tl with _ | g0
      · simp only [hspec] at h
        injection h with h
        subst h
        refine ⟨he, List.mem_cons_self _ _, ?_⟩
        intro gg hgg hegg
        rcases List.mem_cons.mp hgg with rfl | hgg
        · exact le_refl _
        · exact absurd hegg (by simp [(spec_none_iff dist lat lng tl).mp hspec gg hgg])
      · simp only [hspec] at h
        obtain ⟨heg0, hmem0, hmin0⟩ := ih g0 hspec
        by_cases hgg : facDist dist lat lng g0 < facDist dist lat lng hd
        · rw [if_pos hgg] at h
          injection h with h
          subst h
          refine ⟨heg0, List.mem_cons_of_mem _ hmem0, ?_⟩
          intro gg hmg hegg
          rcases List.mem_cons.mp hmg with rfl | hmg
          · exact le_of_lt hgg
          · exact hmin0 gg hmg hegg
        · rw [if_neg hgg] at h
          injection h with h
          subst h
          refine ⟨he, List.mem_cons_self _ _, ?_⟩
          intro gg hmg hegg
          rcases List.mem_cons.mp hmg with rfl | hmg
          · exact le_refl _
          · exact le_trans (le_of_not_lt hgg) (hmin0 gg hmg hegg)
    · simp only [nearestFacilitySpec, he, if_false, Bool.false_eq_true] at h
      obtain ⟨hef, hmem, hmin⟩ := ih f h
      refine ⟨hef, List.mem_cons_of_mem _ hmem, ?_⟩
      intro gg hmg hegg
      rcases List.mem_cons.mp hmg with rfl | hmg
      · exact absurd hegg (by simp_all)
      · exact hmin gg hmg hegg

lemma spec_first (dist : ℚ → ℚ → ℚ → ℚ → ℚ) (lat lng : ℚ) :
    ∀ (fs : List Facility) (f : Facility),
      nearestFacilitySpec dist lat lng fs = some f →
        ∃ pre suf, fs = pre ++ f :: suf ∧
          ∀ gg ∈ pre, gg.eligible = true →
            facDist dist lat lng f < facDist dist lat lng gg := by
  intro fs
  induction fs with
  | nil => intro f h; cases h
  | cons hd tl ih =>
    intro f h
    by_cases he : hd.eligible
    · simp only [nearestFacilitySpec, he, if_true] at h
      rcases hspec : nearestFacilitySpec dist lat lng tl with _ | g0
      · simp only [hspec] at h
        injection h with h
        subst h
        exact ⟨[], tl, rfl, by simp⟩
      · simp only [hspec] at h
        by_cases hgg : facDist dist lat lng g0 < facDist dist lat lng hd
        · rw [if_pos hgg] at h
          injection h with h
          subst h
          obtain ⟨pre, suf, heq, hlt⟩ := ih g0 hspec
          refine ⟨hd :: pre, suf, by rw [heq]; rfl, ?_⟩
          intro gg hmg hegg
          rcases List.mem_cons.mp hmg with rfl | hmg
          · exact hgg
          · exact hlt gg hmg hegg
        · rw [if_neg hgg] at h
          injection h with h
          subst h
          exact ⟨[], tl, rfl, by simp⟩
    · simp only [nearestFacilitySpec, he, if_false, Bool.false_eq_true] at h
      obtain ⟨pre, suf, heq, hlt⟩ := ih f h
      refine ⟨hd :: pre, suf, by rw [heq]; rfl, ?_⟩
      intro gg hmg hegg
      rcases List.mem_cons.mp hmg with rfl | hmg
      · exact absurd hegg (by simp_all)
      · exact hlt gg hmg hegg

/-- C8: `find_nearest_facility` refines the specification selection
`nearestFacilitySpec` for every metric: it returns `none` exactly when no
eligible candidate exists, and otherwise the first-encountered eligible
candidate of minimal distance, candidates with a missing identifier or a
zero/missing coordinate being excluded. -/
theorem find_nearest_facility_correct (dist : ℚ → ℚ → ℚ → ℚ → ℚ) (lat lng : ℚ)
    (fs : List Facility) :
    find_nearest_facility dist lat lng fs = nearestFacilitySpec dist lat lng fs ∧
    (find_nearest_facility dist lat lng fs = none ↔ ∀ f ∈ fs, f.eligible = false) ∧
    (∀ f, find_nearest_facility dist lat lng fs = some f →
      f.eligible = true ∧ f ∈ fs ∧
      (∀ gg ∈ fs, gg.eligible = true →
        facDist dist lat lng f ≤ facDist dist lat lng gg) ∧
      ∃ pre suf, fs = pre ++ f :: suf ∧
        ∀ gg ∈ pre, gg.eligible = true →
          facDist dist lat lng f < facDist dist lat lng gg) := by
  have heq := find_nearest_eq_spec dist lat lng fs
  refine ⟨heq, ?_, ?_⟩
  · rw [heq]
    exact spec_none_iff dist lat lng fs
  · intro f hf
    rw [heq] at hf
    obtain ⟨he, hmem, hmin⟩ := spec_some dist lat lng fs f hf
    obtain ⟨pre, suf, hsplit, hfirst⟩ := spec_first dist lat lng fs f hf
    exact ⟨he, hmem, hmin, pre, suf, hsplit, hfirst⟩

/-- C8 witness: with a taxicab stand-in metric and three candidates — an
eligible far one, a nominally-closest one excluded for its missing latitude,
and an eligible near one — the near eligible candidate is selected. -/
theorem find_nearest_facility_correct_witness :
    find_nearest_facility taxiDist 0 0 [facFar, facZero, facNear] = some facNear ∧
    facNear.eligible = true ∧ facNear ∈ [facFar, facZero, facNear] ∧
    facZero.eligible = false :=
  let h : find_nearest_facility taxiDist 0 0 [facFar, facZero, facNear] = some facNear := by
    with_unfolding_all rfl
  let p := (find_nearest_facility_correct taxiDist 0 0 [facFar, facZero, facNear]).2.2
    facNear h
  ⟨h, p.1, p.2.1, rfl⟩

end AbleMap
